import Mathlib

/-!  Verification of the flux-framework module/workflow orchestration engine.

The definitions below are a shallow embedding of the orchestration core:

* `FluxError` embeds the error enum of src/error.rs (payloads are the
  formatted message strings).
* `Module` embeds the `Module` trait object of src/modules/mod.rs: a record
  of its capability set.  The system-probing parts of each concrete module
  (availability checks, execute bodies, help rendering) shell out to OS
  utilities and are abstracted as an environment `Env`; the registry shape,
  the registered names and all metadata strings are taken verbatim from the
  source.
* `ModuleManager` embeds the registry (a `HashMap` keyed by module name,
  embedded as an association list with unique keys).
* The effectful functions (`load_module`, the executor loop of
  `BaseWorkflow::execute_modules`, `WorkflowManager::execute_workflow`)
  are embedded in state-passing style: interactive confirmations are an
  injected oracle `Nat → Except FluxError Bool` consumed by call index, and
  each function additionally returns the list of observable `Event`s it
  performed (module step headers, availability checks, confirmation prompts,
  help renderings, execute calls, the reboot check, the printed summary), so
  that "X is never called" claims are statements about the event trace.
-/

namespace Flux

/-- Error enum of src/error.rs (`FluxError`); each payload is the rendered
message string. -/
inductive FluxError where
  | Io : String → FluxError
  | Config : String → FluxError
  | Module : String → FluxError
  | Validation : String → FluxError
  | System : String → FluxError
  | Network : String → FluxError
  | Permission : String → FluxError
  | NotFound : String → FluxError
  | CommandFailed : String → FluxError
  | Parse : String → FluxError
  | Ssh : String → FluxError
  | UserCancelled : FluxError
  | Unsupported : String → FluxError
  | External : String → FluxError
  deriving DecidableEq

/-- Is the error the `NotFound` variant (src/error.rs line 31)? -/
def FluxError.isNotFound : FluxError → Bool
  | .NotFound _ => true
  | _ => false

/-- Is the error the `Module` variant (src/error.rs line 16)? -/
def FluxError.isModuleErr : FluxError → Bool
  | .Module _ => true
  | _ => false

/-- The configuration (src/config.rs).  The orchestration core threads it
through by shared reference and never inspects its fields, so they are not
modelled. -/
inductive Config where
  | mk : Config

/-- Observable actions of the orchestration core, recorded as a trace:
`step` is the "[i/total] Module: name" header printed at the top of each
executor iteration, `availChecked` an `is_available()` probe made by
`load_module`, `confirmAsked` an interactive `prompt_yes_no`, `helpShown` a
`module.help()` rendering, `executed` a `module.execute(args, config)` call,
`rebootChecked` the `check_reboot_needed()` call, and `summary` the printed
"Workflow Summary" block with its completed/failed/skipped counters. -/
inductive Event where
  | step : String → Event
  | availChecked : String → Event
  | confirmAsked : String → Event
  | helpShown : String → Event
  | executed : String → List String → Event
  | rebootChecked : Event
  | summary : Nat → Nat → Nat → Event
  deriving DecidableEq

/-- The `Module` trait of src/modules/mod.rs as a record of its capability
set.  `is_available` is the value the unit's availability probe reports in
the (fixed) environment; `execute` is its effectful body, returning the
`Result<()>` it produces. -/
structure Module where
  name : String
  description : String
  version : String
  is_available : Bool
  help : String
  execute : List String → Config → Except FluxError Unit

/-- The registry of `ModuleManager` (src/modules/mod.rs): a `HashMap` from
module name to trait object, embedded as an association list whose keys are
the map's keys. -/
structure ModuleManager where
  modules : List (String × Module)

/-- The system-dependent behavior of the concrete modules, abstracted per
module name: availability probes, execute bodies, help text, and the result
of the reboot-required check of src/helpers/system.rs — all side-effecting
code outside the orchestration core. -/
structure Env where
  avail : String → Bool
  helpText : String → String
  exec : String → List String → Config → Except FluxError Unit
  reboot : Except FluxError Unit

/-- A concrete module as registered by `ModuleManager::new`: name,
description and version are the literals of its source file; availability,
help and execute come from the environment. -/
def mkRegistered (env : Env) (name description version : String) : Module :=
  { name := name, description := description, version := version,
    is_available := env.avail name, help := env.helpText name,
    execute := env.exec name }

/-- `ModuleManager::new` (src/modules/mod.rs lines 60-83): registers exactly
the eleven concrete modules, keyed by each module's `name()`.  All names are
distinct, so the `HashMap` insert loop is this eleven-entry map. -/
def ModuleManager.new (env : Env) : ModuleManager :=
  ⟨[("update", mkRegistered env "update" "System update and package management" "1.0.0"),
    ("network", mkRegistered env "network" "Network configuration and management" "1.0.0"),
    ("hostname", mkRegistered env "hostname" "Hostname and FQDN configuration" "1.0.0"),
    ("user", mkRegistered env "user" "Local user and group management" "1.0.0"),
    ("ssh", mkRegistered env "ssh" "SSH server hardening and configuration" "1.0.0"),
    ("firewall", mkRegistered env "firewall" "Host firewall configuration and management" "1.0.0"),
    ("certs", mkRegistered env "certs" "TLS/CA certificates management" "1.0.0"),
    ("sysctl", mkRegistered env "sysctl" "Kernel sysctl hardening parameters" "1.0.0"),
    ("zsh", mkRegistered env "zsh" "ZSH and Oh-My-Zsh installation and configuration" "1.0.0"),
    ("motd", mkRegistered env "motd" "Dynamic Message of the Day configuration" "1.0.0"),
    ("netdata", mkRegistered env "netdata" "Netdata monitoring agent installation and configuration" "1.0.0")]⟩

/-- The names registered in the manager (the `HashMap` key set). -/
def ModuleManager.registeredNames (mm : ModuleManager) : List String :=
  mm.modules.map (fun p => p.1)

/-- `ModuleManager::get_module` (src/modules/mod.rs lines 103-107): map
lookup, `Module`-variant error when the name is absent. -/
def ModuleManager.get_module (mm : ModuleManager) (name : String) :
    Except FluxError Module :=
  match mm.modules.find? (fun p => p.1 == name) with
  | some p => .ok p.2
  | none => .error (.Module ("Module '" ++ name ++ "' not found"))

/-- `ModuleDescriptor` (src/modules/mod.rs lines 137-142). -/
structure ModuleDescriptor where
  name : String
  description : String
  version : String
  available : Bool
  deriving DecidableEq

/-- `ModuleDescriptor::is_executable` (src/modules/mod.rs lines 145-147). -/
def ModuleDescriptor.is_executable (d : ModuleDescriptor) : Bool :=
  d.available

/-- `ModuleManager::discover_modules` (src/modules/mod.rs lines 86-100):
one descriptor per registry entry with `available` set from the unit's
`is_available()`, then `sort_by` on the name. -/
def ModuleManager.discover_modules (mm : ModuleManager) :
    Except FluxError (List ModuleDescriptor) :=
  .ok ((mm.modules.map fun p =>
        ModuleDescriptor.mk p.1 p.2.description p.2.version p.2.is_available).mergeSort
      (fun a b => decide (a.name ≤ b.name)))

/-- The help-flag test of `load_module` (src/modules/mod.rs line 126). -/
def helpFlag (a : String) : Bool :=
  a == "--help" || a == "-h"

/-- `ModuleManager::load_module` (src/modules/mod.rs lines 110-132): the
four-step gate — lookup, availability, help shortcut, execute — returning
the result paired with the trace of what it did. -/
def ModuleManager.load_module (mm : ModuleManager) (name : String)
    (args : List String) (config : Config) : Except FluxError Unit × List Event :=
  match mm.get_module name with
  | .error e => (.error e, [])
  | .ok m =>
    if m.is_available then
      if args.any helpFlag then
        (.ok (), [.availChecked name, .helpShown name])
      else
        (m.execute args config, [.availChecked name, .executed name args])
    else
      (.error (.Module ("Module '" ++ name ++ "' is not available on this system")),
        [.availChecked name])

/-- The interactive confirmation provider: answers (or errors) of
`prompt_yes_no`, indexed by the order in which prompts are issued. -/
abbrev Oracle := Nat → Except FluxError Bool

/-- The per-module confirmation prompt text (src/workflows/mod.rs line 140). -/
def executePrompt (name : String) : String :=
  "Execute " ++ name ++ " module?"

/-- The continue-after-failure prompt text (src/workflows/mod.rs line 150). -/
def continuePrompt : String :=
  "Continue with remaining modules?"

/-- The overall workflow confirmation prompt text (src/workflows/mod.rs
line 77). -/
def workflowPrompt : String :=
  "Continue with workflow execution?"

/-- Outcome of one iteration of the executor loop: continue with updated
prompt index and counters, break out of the loop with the final counters,
or abort the whole run with an error. -/
inductive StepResult where
  | cont : Nat → Nat → Nat → Nat → List Event → StepResult
  | brk : Nat → Nat → Nat → List Event → StepResult
  | halt : FluxError → List Event → StepResult

/-- One iteration of the loop body of `BaseWorkflow::execute_modules`
(src/workflows/mod.rs lines 128-159), for module `name` at prompt index `k`
with counters `c`/`f`/`s` (completed/failed/skipped): registry lookup is
fatal; an unavailable module is skipped without any prompt; otherwise the
per-module confirmation gates a `load_module` call with empty args, a
failure increments `f` and asks whether to continue, and a declined
execution increments `s`. -/
def execStep (mm : ModuleManager) (config : Config) (oracle : Oracle)
    (name : String) (k c f s : Nat) : StepResult :=
  match mm.get_module name with
  | .error e => .halt e []
  | .ok m =>
    if m.is_available then
      match oracle k with
      | .error e => .halt e [.confirmAsked (executePrompt name)]
      | .ok true =>
        match mm.load_module name [] config with
        | (.ok _, tr) =>
          .cont (k + 1) (c + 1) f s (.confirmAsked (executePrompt name) :: tr)
        | (.error _, tr) =>
          match oracle (k + 1) with
          | .error e2 =>
            .halt e2
              (.confirmAsked (executePrompt name) :: tr ++ [.confirmAsked continuePrompt])
          | .ok true =>
            .cont (k + 2) c (f + 1) s
              (.confirmAsked (executePrompt name) :: tr ++ [.confirmAsked continuePrompt])
          | .ok false =>
            .brk c (f + 1) s
              (.confirmAsked (executePrompt name) :: tr ++ [.confirmAsked continuePrompt])
      | .ok false =>
        .cont (k + 1) c f (s + 1) [.confirmAsked (executePrompt name)]
    else
      .cont k c f (s + 1) []

/-- The executor loop of `BaseWorkflow::execute_modules` (src/workflows/
mod.rs lines 128-171) over the remaining module names, threading the prompt
index and the three counters; when the list is exhausted (or the loop broke)
the summary is printed and the function returns `Ok`. -/
def execModulesAux (mm : ModuleManager) (config : Config) (oracle : Oracle) :
    List String → Nat → Nat → Nat → Nat → Except FluxError Unit × List Event
  | [], _, c, f, s => (.ok (), [.summary c f s])
  | name :: rest, k, c, f, s =>
    match execStep mm config oracle name k c f s with
    | .halt e tr => (.error e, .step name :: tr)
    | .brk c' f' s' tr => (.ok (), .step name :: tr ++ [.summary c' f' s'])
    | .cont k' c' f' s' tr =>
      let r := execModulesAux mm config oracle rest k' c' f' s'
      (r.1, .step name :: tr ++ r.2)

/-- `BaseWorkflow` (src/workflows/mod.rs lines 104-108). -/
structure BaseWorkflow where
  name : String
  description : String
  modules : List String

/-- `BaseWorkflow::execute_modules` (src/workflows/mod.rs lines 120-172):
builds the module registry via `ModuleManager::new` and runs the loop with
all counters zero; `k` is the index of the first confirmation it issues. -/
def BaseWorkflow.execute_modules (bw : BaseWorkflow) (env : Env) (config : Config)
    (oracle : Oracle) (k : Nat) : Except FluxError Unit × List Event :=
  execModulesAux (ModuleManager.new env) config oracle bw.modules k 0 0 0

/-- A workflow (src/workflows/mod.rs `Workflow` trait): name, description
and its ordered module list. -/
structure Workflow where
  name : String
  description : String
  modules : List String

/-- Each registered workflow's `execute` builds a `BaseWorkflow` from its
fixed data and calls `execute_modules` (e.g. src/workflows/essential.rs
lines 31-39). -/
def Workflow.execute (w : Workflow) (env : Env) (config : Config)
    (oracle : Oracle) (k : Nat) : Except FluxError Unit × List Event :=
  BaseWorkflow.execute_modules ⟨w.name, w.description, w.modules⟩ env config oracle k

/-- `WorkflowManager` (src/workflows/mod.rs lines 37-39): the workflow
registry, a `HashMap` from workflow name to workflow. -/
structure WorkflowManager where
  workflows : List (String × Workflow)

/-- The registry lookup inside `execute_workflow` (src/workflows/mod.rs
lines 58-60). -/
def WorkflowManager.resolve (wm : WorkflowManager) (name : String) : Option Workflow :=
  (wm.workflows.find? (fun p => p.1 == name)).map (fun p => p.2)

/-- `WorkflowManager::execute_workflow` (src/workflows/mod.rs lines 57-89):
resolve the workflow (`NotFound` error if absent), print the plan, ask the
overall confirmation (declined means return `Ok` at once), run the
workflow's executor with `?`, then run `check_reboot_needed()` with `?`.
The overall confirmation is prompt index 0; the executor prompts start
at 1. -/
def WorkflowManager.execute_workflow (wm : WorkflowManager) (name : String)
    (env : Env) (config : Config) (oracle : Oracle) :
    Except FluxError Unit × List Event :=
  match wm.resolve name with
  | none => (.error (.NotFound ("Workflow '" ++ name ++ "' not found")), [])
  | some w =>
    match oracle 0 with
    | .error e => (.error e, [.confirmAsked workflowPrompt])
    | .ok false => (.ok (), [.confirmAsked workflowPrompt])
    | .ok true =>
      let r := w.execute env config oracle 1
      match r.1 with
      | .error e => (.error e, .confirmAsked workflowPrompt :: r.2)
      | .ok _ =>
        match env.reboot with
        | .error e =>
          (.error e, .confirmAsked workflowPrompt :: r.2 ++ [.rebootChecked])
        | .ok _ =>
          (.ok (), .confirmAsked workflowPrompt :: r.2 ++ [.rebootChecked])

/-- The essential workflow (src/workflows/essential.rs): its ordered module
list names `timezone` third. -/
def EssentialWorkflow : Workflow :=
  ⟨"essential",
   "Basic system setup including hostname, network, timezone, updates, certificates, system hardening, and SSH configuration",
   ["hostname", "network", "timezone", "update", "certs", "sysctl", "ssh"]⟩

/-- The development workflow (src/workflows/development.rs): all three of
its module names are registered. -/
def DevelopmentWorkflow : Workflow :=
  ⟨"development",
   "Development environment setup: user creation, ZSH, and development tools",
   ["user", "zsh", "certs"]⟩

/-- The trace carried by a step outcome. -/
def StepResult.trace : StepResult → List Event
  | .cont _ _ _ _ tr => tr
  | .brk _ _ _ tr => tr
  | .halt _ tr => tr

/-- Events a loop iteration body can emit through `load_module` and its
prompts (everything except step headers, summaries and the reboot check). -/
def stepEvent : Event → Bool
  | .confirmAsked _ => true
  | .availChecked _ => true
  | .helpShown _ => true
  | .executed _ _ => true
  | _ => false

/-- Events the executor loop can emit (everything except the reboot check,
which only `execute_workflow` performs). -/
def loopEvent : Event → Bool
  | .rebootChecked => false
  | _ => true

/-- Is the event a printed summary? -/
def isSummary : Event → Bool
  | .summary _ _ _ => true
  | _ => false

/-- Is the event an `execute` call? -/
def isExecuted : Event → Bool
  | .executed _ _ => true
  | _ => false

/-- A concrete configuration value for concrete runs. -/
def cfg : Config := Config.mk

/-- Environment in which every module is available, every execute succeeds
and the reboot check succeeds. -/
def envAllOk : Env :=
  ⟨fun _ => true, fun _ => "", fun _ _ _ => .ok (), .ok ()⟩

/-- Environment in which only the network module is unavailable. -/
def envNetworkDown : Env :=
  ⟨fun n => !(n == "network"), fun _ => "", fun _ _ _ => .ok (), .ok ()⟩

/-- Environment in which only the network module's execute fails. -/
def envNetworkFails : Env :=
  ⟨fun _ => true, fun _ => "",
   fun n _ _ => if n == "network" then .error (.Module "network failed") else .ok (),
   .ok ()⟩

/-- Environment in which everything succeeds except the reboot check. -/
def envRebootErr : Env :=
  ⟨fun _ => true, fun _ => "", fun _ _ _ => .ok (), .error (.System "reboot check failed")⟩

/-- Confirmation provider answering yes to every prompt. -/
def oracleYes : Oracle := fun _ => .ok true

/-- Confirmation provider answering no to every prompt. -/
def oracleNo : Oracle := fun _ => .ok false

/-- Confirmation provider answering yes everywhere except at prompt
index 2. -/
def oracleNoAt2 : Oracle := fun j => if j == 2 then .ok false else .ok true

/-- A workflow registry fixture holding the essential workflow. -/
def wmEssential : WorkflowManager := ⟨[("essential", EssentialWorkflow)]⟩

/-- A workflow registry fixture holding the development workflow. -/
def wmDevelopment : WorkflowManager := ⟨[("development", DevelopmentWorkflow)]⟩

/-- A `get_module` failure is always the `Module` error variant. -/
theorem get_module_error_isModuleErr (mm : ModuleManager) (name : String)
    (e : FluxError) (h : mm.get_module name = .error e) : e.isModuleErr = true := by
  unfold ModuleManager.get_module at h
  rcases hfind : mm.modules.find? (fun p => p.1 == name) with _ | p
  · rw [hfind] at h
    cases h
    rfl
  · rw [hfind] at h
    cases h

/-- Every event `load_module` emits is a loop-body event. -/
theorem load_module_events (mm : ModuleManager) (name : String)
    (args : List String) (config : Config) :
    ∀ ev ∈ (mm.load_module name args config).2, stepEvent ev = true := by
  unfold ModuleManager.load_module
  rcases hg : mm.get_module name with e | m
  · simp
  · by_cases h : m.is_available = true
    · by_cases h2 : args.any helpFlag = true
      · simp [h, h2, stepEvent]
      · simp [h, h2, stepEvent]
    · simp [h, stepEvent]

/-- Every event a loop iteration body emits is a loop-body event. -/
theorem execStep_events (mm : ModuleManager) (config : Config) (oracle : Oracle)
    (name : String) (k c f s : Nat) :
    ∀ ev ∈ (execStep mm config oracle name k c f s).trace, stepEvent ev = true := by
  unfold execStep
  rcases hg : mm.get_module name with e | m
  · simp [StepResult.trace]
  · by_cases h : m.is_available = true
    · rcases ho : oracle k with e | b
      · simp [h, ho, StepResult.trace, stepEvent]
      · rcases b with _ | _
        · simp [h, ho, StepResult.trace, stepEvent]
        · rcases hl : mm.load_module name [] config with ⟨res, tr⟩
          have htr : ∀ ev ∈ tr, stepEvent ev = true := by
            have := load_module_events mm name [] config
            rw [hl] at this
            exact this
          rcases res with e2 | u
          · rcases ho2 : oracle (k + 1) with e3 | b2
            · simp only [h, ho, hl, ho2, if_pos, StepResult.trace]
              intro ev hev
              rcases List.mem_cons.mp hev with rfl | hev
              · rfl
              · rcases List.mem_append.mp hev with hev | hev
                · exact htr ev hev
                · simp at hev; subst hev; rfl
            · rcases b2 with _ | _
              · simp only [h, ho, hl, ho2, if_pos, StepResult.trace]
                intro ev hev
                rcases List.mem_cons.mp hev with rfl | hev
                · rfl
                · rcases List.mem_append.mp hev with hev | hev
                  · exact htr ev hev
                  · simp at hev; subst hev; rfl
              · simp only [h, ho, hl, ho2, if_pos, StepResult.trace]
                intro ev hev
                rcases List.mem_cons.mp hev with rfl | hev
                · rfl
                · rcases List.mem_append.mp hev with hev | hev
                  · exact htr ev hev
                  · simp at hev; subst hev; rfl
          · simp only [h, ho, hl, if_pos, StepResult.trace]
            intro ev hev
            rcases List.mem_cons.mp hev with rfl | hev
            · rfl
            · exact htr ev hev
    · simp [h, StepResult.trace]

/-- A loop-body event is neither a step header, a summary, nor the reboot
check. -/
theorem stepEvent_shapes (ev : Event) (h : stepEvent ev = true) :
    (∀ n, ev ≠ .step n) ∧ (∀ c f s, ev ≠ .summary c f s) ∧ ev ≠ .rebootChecked := by
  rcases ev <;> simp_all [stepEvent]

/-- Every event the executor loop emits is a loop event: in particular the
reboot check never happens inside the loop. -/
theorem execModulesAux_events (mm : ModuleManager) (config : Config) (oracle : Oracle) :
    ∀ (l : List String) (k c f s : Nat),
      ∀ ev ∈ (execModulesAux mm config oracle l k c f s).2, loopEvent ev = true := by
  intro l
  induction l with
  | nil => intro k c f s ev hev; simp [execModulesAux] at hev; subst hev; rfl
  | cons name rest ih =>
    intro k c f s ev hev
    have hstepEv : ∀ ev₂ ∈ (execStep mm config oracle name k c f s).trace,
        loopEvent ev₂ = true := by
      intro ev₂ h₂
      have := execStep_events mm config oracle name k c f s ev₂ h₂
      rcases ev₂ <;> simp_all [stepEvent, loopEvent]
    rcases hstep : execStep mm config oracle name k c f s with ⟨k', c', f', s', tr⟩ | ⟨c', f', s', tr⟩ | ⟨e, tr⟩ <;>
      rw [hstep] at hstepEv <;>
      simp only [execModulesAux, hstep] at hev
    · rcases List.mem_cons.mp hev with rfl | hev
      · rfl
      · rcases List.mem_append.mp hev with hev | hev
        · exact hstepEv ev hev
        · exact ih k' c' f' s' ev hev
    · rcases List.mem_cons.mp hev with rfl | hev
      · rfl
      · rcases List.mem_append.mp hev with hev | hev
        · exact hstepEv ev hev
        · simp at hev; subst hev; rfl
    · rcases List.mem_cons.mp hev with rfl | hev
      · rfl
      · exact hstepEv ev hev

/-- When the executor loop aborts with an error, no summary was printed. -/
theorem execModulesAux_error_no_summary (mm : ModuleManager) (config : Config)
    (oracle : Oracle) :
    ∀ (l : List String) (k c f s : Nat) (e : FluxError),
      (execModulesAux mm config oracle l k c f s).1 = .error e →
      ∀ c' f' s', Event.summary c' f' s' ∉ (execModulesAux mm config oracle l k c f s).2 := by
  intro l
  induction l with
  | nil => intro k c f s e he; simp [execModulesAux] at he
  | cons name rest ih =>
    intro k c f s e he c' f' s' hmem
    have hstepEv : ∀ ev₂ ∈ (execStep mm config oracle name k c f s).trace,
        stepEvent ev₂ = true := execStep_events mm config oracle name k c f s
    rcases hstep : execStep mm config oracle name k c f s with ⟨k', c₂, f₂, s₂, tr⟩ | ⟨c₂, f₂, s₂, tr⟩ | ⟨e₂, tr⟩ <;>
      rw [hstep] at hstepEv <;>
      simp only [execModulesAux, hstep] at he hmem
    · rcases List.mem_cons.mp hmem with hmem | hmem
      · cases hmem
      · rcases List.mem_append.mp hmem with hmem | hmem
        · have := hstepEv _ hmem
          simp [stepEvent] at this
        · exact ih k' c₂ f₂ s₂ e he c' f' s' hmem
    · simp at he
    · rcases List.mem_cons.mp hmem with hmem | hmem
      · cases hmem
      · have := hstepEv _ hmem
        simp [stepEvent] at this

/-- When every module in the list is registered, available and succeeds on
empty arguments, and every confirmation is answered yes, the loop returns
`Ok`, calls each module's execute exactly once in list order, and prints the
summary with `completed` increased by the list length and `failed`/`skipped`
unchanged. -/
theorem execModulesAux_all_ok (mm : ModuleManager) (config : Config) (oracle : Oracle)
    (hyes : ∀ j, oracle j = .ok true) :
    ∀ (l : List String) (k c f s : Nat),
      (∀ n ∈ l, ∃ m, mm.get_module n = .ok m ∧ m.is_available = true ∧
        m.execute [] config = .ok ()) →
      (execModulesAux mm config oracle l k c f s).1 = .ok () ∧
      (execModulesAux mm config oracle l k c f s).2.filter isExecuted =
        l.map (fun n => .executed n []) ∧
      (execModulesAux mm config oracle l k c f s).2.filter isSummary =
        [.summary (c + l.length) f s] := by
  intro l
  induction l with
  | nil =>
    intro k c f s _
    refine ⟨rfl, rfl, ?_⟩
    simp [execModulesAux, isSummary]
  | cons name rest ih =>
    intro k c f s hl
    obtain ⟨m, hok, havail, hexec⟩ := hl name (List.mem_cons_self _ _)
    have hload : mm.load_module name [] config =
        (.ok (), [.availChecked name, .executed name []]) := by
      simp [ModuleManager.load_module, hok, havail, hexec, helpFlag]
    have hstep : execStep mm config oracle name k c f s =
        .cont (k + 1) (c + 1) f s
          [.confirmAsked (executePrompt name), .availChecked name, .executed name []] := by
      simp [execStep, hok, havail, hyes k, hload]
    have ihr := ih (k + 1) (c + 1) f s (fun n hn => hl n (List.mem_cons_of_mem _ hn))
    simp only [execModulesAux, hstep]
    refine ⟨ihr.1, ?_, ?_⟩
    · simp [List.filter_append, isExecuted, ihr.2.1]
    · have harith : c + 1 + rest.length = c + (rest.length + 1) := by omega
      simp [List.filter_append, isSummary, ihr.2.2, harith]

/-- With every prompt answered yes, the loop reaches the first absent module
name and aborts with that name's lookup error. -/
theorem execModulesAux_first_absent (mm : ModuleManager) (config : Config)
    (oracle : Oracle) (hyes : ∀ j, oracle j = .ok true)
    (n : String) (e : FluxError) (habs : mm.get_module n = .error e) :
    ∀ (l₁ l₂ : List String) (k c f s : Nat),
      (∀ m ∈ l₁, ∃ md, mm.get_module m = .ok md) →
      (execModulesAux mm config oracle (l₁ ++ n :: l₂) k c f s).1 = .error e := by
  intro l₁
  induction l₁ with
  | nil =>
    intro l₂ k c f s _
    have hstep : execStep mm config oracle n k c f s = .halt e [] := by
      simp [execStep, habs]
    simp [execModulesAux, hstep]
  | cons name rest ih =>
    intro l₂ k c f s hl
    obtain ⟨md, hok⟩ := hl name (List.mem_cons_self _ _)
    have htail : ∀ m ∈ rest, ∃ md, mm.get_module m = .ok md :=
      fun m hm => hl m (List.mem_cons_of_mem _ hm)
    by_cases havail : md.is_available = true
    · rcases hload : mm.load_module name [] config with ⟨res, tr⟩
      rcases res with e2 | u
      · have hstep : execStep mm config oracle name k c f s =
            .cont (k + 2) c (f + 1) s
              (.confirmAsked (executePrompt name) :: tr ++ [.confirmAsked continuePrompt]) := by
          simp [execStep, hok, havail, hyes k, hload, hyes (k + 1)]
        simp [execModulesAux, hstep, ih l₂ _ _ _ _ htail]
      · have hstep : execStep mm config oracle name k c f s =
            .cont (k + 1) (c + 1) f s (.confirmAsked (executePrompt name) :: tr) := by
          simp [execStep, hok, havail, hyes k, hload]
        simp [execModulesAux, hstep, ih l₂ _ _ _ _ htail]
    · have hstep : execStep mm config oracle name k c f s = .cont k c f (s + 1) [] := by
        simp [execStep, hok, havail]
      simp [execModulesAux, hstep, ih l₂ _ _ _ _ htail]

/-- If a run of the loop prints the step header of a module whose registry
lookup fails, and every other listed name resolves, the run aborts with that
lookup error (whatever the prompt answers were). -/
theorem execModulesAux_reached_absent (mm : ModuleManager) (config : Config)
    (oracle : Oracle) (n : String) (e : FluxError)
    (habs : mm.get_module n = .error e) :
    ∀ (l : List String) (k c f s : Nat),
      (∀ m ∈ l, m = n ∨ ∃ md, mm.get_module m = .ok md) →
      Event.step n ∈ (execModulesAux mm config oracle l k c f s).2 →
      (execModulesAux mm config oracle l k c f s).1 = .error e := by
  intro l
  induction l with
  | nil =>
    intro k c f s _ hmem
    simp [execModulesAux, execStep] at hmem
  | cons name rest ih =>
    intro k c f s hl hmem
    rcases hl name (List.mem_cons_self _ _) with rfl | ⟨md, hok⟩
    · have hstep : execStep mm config oracle name k c f s = .halt e [] := by
        simp [execStep, habs]
      simp [execModulesAux, hstep]
    · have hne : name ≠ n := by
        intro hcontra
        rw [hcontra, habs] at hok
        cases hok
      have htail : ∀ m ∈ rest, m = n ∨ ∃ md, mm.get_module m = .ok md :=
        fun m hm => hl m (List.mem_cons_of_mem _ hm)
      have htrEv := execStep_events mm config oracle name k c f s
      rcases hstep : execStep mm config oracle name k c f s with
          ⟨k', c', f', s', tr⟩ | ⟨c', f', s', tr⟩ | ⟨e₂, tr⟩ <;>
        rw [hstep] at htrEv <;>
        simp only [execModulesAux, hstep] at hmem ⊢
      · rcases List.mem_cons.mp hmem with heq | hmem2
        · exact absurd (Event.step.inj heq).symm hne
        · rcases List.mem_append.mp hmem2 with h3 | h3
          · exact absurd rfl ((stepEvent_shapes _ (htrEv _ h3)).1 n)
          · exact ih k' c' f' s' htail h3
      · exfalso
        rcases List.mem_cons.mp hmem with heq | hmem2
        · exact hne (Event.step.inj heq).symm
        · rcases List.mem_append.mp hmem2 with h3 | h3
          · exact (stepEvent_shapes _ (htrEv _ h3)).1 n rfl
          · simp at h3
      · exfalso
        rcases List.mem_cons.mp hmem with heq | h3
        · exact hne (Event.step.inj heq).symm
        · exact (stepEvent_shapes _ (htrEv _ h3)).1 n rfl

/-- C1: `load_module` performs exactly the four-step gate — lookup, then
availability, then help shortcut, then execute — short-circuiting in that
order: an absent name returns the lookup error with nothing else evaluated
(empty trace), an unavailable module returns the unavailability error
without execute or help, a help flag among the arguments renders help and
returns success without execute, and otherwise the module's execute result
is returned unchanged. -/
theorem load_module_four_step_gate (mm : ModuleManager) (name : String)
    (args : List String) (config : Config) :
    (∀ e, mm.get_module name = .error e →
      mm.load_module name args config = (.error e, [])) ∧
    (∀ m, mm.get_module name = .ok m → m.is_available = false →
      mm.load_module name args config =
        (.error (.Module ("Module '" ++ name ++ "' is not available on this system")),
          [.availChecked name])) ∧
    (∀ m, mm.get_module name = .ok m → m.is_available = true →
      args.any helpFlag = true →
      mm.load_module name args config = (.ok (), [.availChecked name, .helpShown name])) ∧
    (∀ m, mm.get_module name = .ok m → m.is_available = true →
      args.any helpFlag = false →
      mm.load_module name args config =
        (m.execute args config, [.availChecked name, .executed name args])) := by
  refine ⟨?_, ?_, ?_, ?_⟩
  · intro e he
    simp [ModuleManager.load_module, he]
  · intro m hm hv
    simp [ModuleManager.load_module, hm, hv]
  · intro m hm hv hh
    simp [ModuleManager.load_module, hm, hv, hh]
  · intro m hm hv hh
    simp [ModuleManager.load_module, hm, hv, hh]

/-- Witness for C1: the four branches of the gate evaluated at concrete
inputs on the registry of `ModuleManager::new`. -/
theorem load_module_four_step_gate_witness :
    (ModuleManager.new envAllOk).load_module "timezone" [] cfg =
      (.error (.Module "Module 'timezone' not found"), []) ∧
    (ModuleManager.new envNetworkDown).load_module "network" [] cfg =
      (.error (.Module "Module 'network' is not available on this system"),
        [.availChecked "network"]) ∧
    (ModuleManager.new envAllOk).load_module "ssh" ["--help"] cfg =
      (.ok (), [.availChecked "ssh", .helpShown "ssh"]) ∧
    (ModuleManager.new envAllOk).load_module "ssh" [] cfg =
      (.ok (), [.availChecked "ssh", .executed "ssh" []]) := by
  refine ⟨?_, ?_, ?_, ?_⟩
  · exact (load_module_four_step_gate (ModuleManager.new envAllOk) "timezone" [] cfg).1 _ rfl
  · exact (load_module_four_step_gate (ModuleManager.new envNetworkDown) "network" [] cfg).2.1 _ rfl rfl
  · exact (load_module_four_step_gate (ModuleManager.new envAllOk) "ssh" ["--help"] cfg).2.2.1 _ rfl rfl rfl
  · exact ((load_module_four_step_gate (ModuleManager.new envAllOk) "ssh" [] cfg).2.2.2
      (mkRegistered envAllOk "ssh" "SSH server hardening and configuration" "1.0.0")
      rfl rfl rfl).trans rfl

/-- C8: `discover_modules` returns one descriptor per registered module — a
permutation of the registry's entries, each descriptor carrying that unit's
availability — sorted lexicographically by name; and with no registration
change two successive calls return identical sequences. -/
theorem discover_modules_sorted_idempotent (mm : ModuleManager) :
    ∃ ds, mm.discover_modules = .ok ds ∧
      List.Sorted (fun a b : ModuleDescriptor => a.name ≤ b.name) ds ∧
      ds.Perm (mm.modules.map fun p =>
        ModuleDescriptor.mk p.1 p.2.description p.2.version p.2.is_available) ∧
      (∀ p ∈ mm.modules,
        ModuleDescriptor.mk p.1 p.2.description p.2.version p.2.is_available ∈ ds) ∧
      mm.discover_modules = mm.discover_modules := by
  refine ⟨_, rfl, ?_, List.mergeSort_perm _ _, ?_, rfl⟩
  · have htrans : ∀ a b c : ModuleDescriptor,
        decide (a.name ≤ b.name) = true → decide (b.name ≤ c.name) = true →
        decide (a.name ≤ c.name) = true := by
      intro a b c hab hbc
      simp only [decide_eq_true_eq] at hab hbc ⊢
      exact le_trans hab hbc
    have htotal : ∀ a b : ModuleDescriptor,
        (decide (a.name ≤ b.name) || decide (b.name ≤ a.name)) = true := by
      intro a b
      rcases le_total a.name b.name with h | h
      · simp [h]
      · simp [h]
    have h := List.sorted_mergeSort htrans htotal
      (mm.modules.map fun p =>
        ModuleDescriptor.mk p.1 p.2.description p.2.version p.2.is_available)
    exact h.imp (fun hab => of_decide_eq_true hab)
  · intro p hp
    exact (List.mergeSort_perm _ _).mem_iff.mpr (List.mem_map_of_mem _ hp)

/-- C4: in every executor step the availability check precedes the
confirmation: an unavailable module is never prompted and never executed,
`skipped` increases by one, no prompt index is consumed, and the loop
proceeds with the remaining modules; in the concrete [hostname, network,
update] run with only network unavailable the summary is
`{completed: 2, failed: 0, skipped: 1}`, network is never prompted nor
executed, and update still runs. -/
theorem executor_skips_unavailable (mm : ModuleManager) (config : Config)
    (oracle : Oracle) (name : String) (rest : List String) (k c f s : Nat)
    (m : Module) (hok : mm.get_module name = .ok m)
    (hunavail : m.is_available = false) :
    execModulesAux mm config oracle (name :: rest) k c f s =
      ((execModulesAux mm config oracle rest k c f (s + 1)).1,
        .step name :: (execModulesAux mm config oracle rest k c f (s + 1)).2) ∧
    (execModulesAux (ModuleManager.new envNetworkDown) cfg oracleYes
        ["hostname", "network", "update"] 0 0 0 0).2.filter isSummary =
      [.summary 2 0 1] ∧
    Event.confirmAsked (executePrompt "network") ∉
      (execModulesAux (ModuleManager.new envNetworkDown) cfg oracleYes
        ["hostname", "network", "update"] 0 0 0 0).2 ∧
    Event.executed "network" [] ∉
      (execModulesAux (ModuleManager.new envNetworkDown) cfg oracleYes
        ["hostname", "network", "update"] 0 0 0 0).2 ∧
    (execModulesAux (ModuleManager.new envNetworkDown) cfg oracleYes
        ["hostname", "network", "update"] 0 0 0 0).2.filter isExecuted =
      [.executed "hostname" [], .executed "update" []] := by
  have hstep : execStep mm config oracle name k c f s = .cont k c f (s + 1) [] := by
    simp [execStep, hok, hunavail]
  refine ⟨?_, by decide, by decide, by decide, by decide⟩
  simp [execModulesAux, hstep]

/-- Witness for C4: the unavailable-network step of the concrete run,
through the theorem. -/
theorem executor_skips_unavailable_witness :
    execModulesAux (ModuleManager.new envNetworkDown) cfg oracleYes
        ["network", "update"] 1 1 0 0 =
      ((execModulesAux (ModuleManager.new envNetworkDown) cfg oracleYes
          ["update"] 1 1 0 1).1,
        .step "network" :: (execModulesAux (ModuleManager.new envNetworkDown) cfg oracleYes
          ["update"] 1 1 0 1).2) :=
  (executor_skips_unavailable (ModuleManager.new envNetworkDown) cfg oracleYes
    "network" ["update"] 1 1 0 0 _ rfl rfl).1

/-- C5: when every module of the workflow's list is registered, available
and succeeds, and the operator confirms every prompt, every module's execute
is called exactly once in exactly the list's order (the run's execute trace
equals the list, so module i+1 is invoked only after module i returned),
and the summary is `{completed: n, failed: 0, skipped: 0}`. -/
theorem executor_all_confirmed_all_succeed (bw : BaseWorkflow) (env : Env)
    (config : Config) (oracle : Oracle) (k : Nat)
    (hyes : ∀ j, oracle j = .ok true)
    (hmods : ∀ n ∈ bw.modules, ∃ m, (ModuleManager.new env).get_module n = .ok m ∧
      m.is_available = true ∧ m.execute [] config = .ok ()) :
    (bw.execute_modules env config oracle k).1 = .ok () ∧
    (bw.execute_modules env config oracle k).2.filter isExecuted =
      bw.modules.map (fun n => .executed n []) ∧
    (bw.execute_modules env config oracle k).2.filter isSummary =
      [.summary bw.modules.length 0 0] := by
  have h := execModulesAux_all_ok (ModuleManager.new env) config oracle hyes
    bw.modules k 0 0 0 hmods
  exact ⟨h.1, h.2.1, by simpa using h.2.2⟩

/-- Witness for C5: the all-success three-module run [hostname, network,
update] completes with `{completed: 3, failed: 0, skipped: 0}` and executes
the three modules in order. -/
theorem executor_all_confirmed_all_succeed_witness :
    ((BaseWorkflow.mk "w" "d" ["hostname", "network", "update"]).execute_modules
        envAllOk cfg oracleYes 0).1 = .ok () ∧
    ((BaseWorkflow.mk "w" "d" ["hostname", "network", "update"]).execute_modules
        envAllOk cfg oracleYes 0).2.filter isExecuted =
      [.executed "hostname" [], .executed "network" [], .executed "update" []] ∧
    ((BaseWorkflow.mk "w" "d" ["hostname", "network", "update"]).execute_modules
        envAllOk cfg oracleYes 0).2.filter isSummary = [.summary 3 0 0] := by
  have h := executor_all_confirmed_all_succeed
    ⟨"w", "d", ["hostname", "network", "update"]⟩ envAllOk cfg oracleYes 0
    (fun _ => rfl) ?hm
  · exact ⟨h.1, h.2.1, h.2.2⟩
  case hm =>
    intro n hn
    simp only [List.mem_cons, List.not_mem_nil, or_false] at hn
    rcases hn with rfl | rfl | rfl
    · exact ⟨_, rfl, rfl, rfl⟩
    · exact ⟨_, rfl, rfl, rfl⟩
    · exact ⟨_, rfl, rfl, rfl⟩

/-- C3: when a module's execute fails, the executor adds exactly one to
`failed` for that step, then proceeds with the remaining modules exactly
when the continue-after-failure confirmation is answered yes; on a no the
loop breaks — no later module runs — while the counters accumulated so far
stand and the summary is still printed.  Concretely on [hostname, network,
update] with only network failing: all-yes ends `{completed: 2, failed: 1,
skipped: 0}` with update executed exactly once; answering no to the
continue prompt ends `{completed: 1, failed: 1, skipped: 0}` with update
never executed. -/
theorem executor_failure_continuation (mm : ModuleManager) (config : Config)
    (oracle : Oracle) (name : String) (rest : List String) (k c f s : Nat)
    (m : Module) (e : FluxError) (tr : List Event)
    (hok : mm.get_module name = .ok m) (havail : m.is_available = true)
    (hconfirm : oracle k = .ok true)
    (hfail : mm.load_module name [] config = (.error e, tr)) :
    (oracle (k + 1) = .ok true →
      execModulesAux mm config oracle (name :: rest) k c f s =
        ((execModulesAux mm config oracle rest (k + 2) c (f + 1) s).1,
          .step name :: (.confirmAsked (executePrompt name) :: tr ++
            [.confirmAsked continuePrompt]) ++
            (execModulesAux mm config oracle rest (k + 2) c (f + 1) s).2)) ∧
    (oracle (k + 1) = .ok false →
      execModulesAux mm config oracle (name :: rest) k c f s =
        (.ok (), .step name :: (.confirmAsked (executePrompt name) :: tr ++
          [.confirmAsked continuePrompt]) ++ [.summary c (f + 1) s])) ∧
    (execModulesAux (ModuleManager.new envNetworkFails) cfg oracleYes
        ["hostname", "network", "update"] 0 0 0 0).2.filter isSummary =
      [.summary 2 1 0] ∧
    (execModulesAux (ModuleManager.new envNetworkFails) cfg oracleYes
        ["hostname", "network", "update"] 0 0 0 0).2.count (.executed "update" []) = 1 ∧
    (execModulesAux (ModuleManager.new envNetworkFails) cfg oracleNoAt2
        ["hostname", "network", "update"] 0 0 0 0).2.filter isSummary =
      [.summary 1 1 0] ∧
    (execModulesAux (ModuleManager.new envNetworkFails) cfg oracleNoAt2
        ["hostname", "network", "update"] 0 0 0 0).2.count (.executed "update" []) = 0 := by
  refine ⟨?_, ?_, by decide, by decide, by decide, by decide⟩
  · intro hcont
    have hstep : execStep mm config oracle name k c f s =
        .cont (k + 2) c (f + 1) s
          (.confirmAsked (executePrompt name) :: tr ++ [.confirmAsked continuePrompt]) := by
      simp [execStep, hok, havail, hconfirm, hfail, hcont]
    simp [execModulesAux, hstep]
  · intro hcont
    have hstep : execStep mm config oracle name k c f s =
        .brk c (f + 1) s
          (.confirmAsked (executePrompt name) :: tr ++ [.confirmAsked continuePrompt]) := by
      simp [execStep, hok, havail, hconfirm, hfail, hcont]
    simp [execModulesAux, hstep]

/-- Witness for C3: the failing network step of the concrete run, through
the theorem, in both the continue-yes and continue-no cases. -/
theorem executor_failure_continuation_witness :
    execModulesAux (ModuleManager.new envNetworkFails) cfg oracleYes
        ["network", "update"] 1 1 0 0 =
      ((execModulesAux (ModuleManager.new envNetworkFails) cfg oracleYes
          ["update"] 3 1 1 0).1,
        .step "network" :: (.confirmAsked (executePrompt "network") ::
          [Event.availChecked "network", Event.executed "network" []] ++
          [.confirmAsked continuePrompt]) ++
          (execModulesAux (ModuleManager.new envNetworkFails) cfg oracleYes
            ["update"] 3 1 1 0).2) ∧
    execModulesAux (ModuleManager.new envNetworkFails) cfg oracleNoAt2
        ["network", "update"] 1 1 0 0 =
      (.ok (), .step "network" :: (.confirmAsked (executePrompt "network") ::
        [Event.availChecked "network", Event.executed "network" []] ++
        [.confirmAsked continuePrompt]) ++ [.summary 1 1 0]) := by
  constructor
  · exact (executor_failure_continuation (ModuleManager.new envNetworkFails) cfg oracleYes
      "network" ["update"] 1 1 0 0 _ _ _ rfl rfl rfl rfl).1 rfl
  · exact (executor_failure_continuation (ModuleManager.new envNetworkFails) cfg oracleNoAt2
      "network" ["update"] 1 1 0 0 _ _ _ rfl rfl rfl rfl).2.1 rfl

/-- C10: the executor loop calls `load_module` only with an empty argument
list, and only after `get_module` succeeded and `is_available()` returned
true for the same name on the same registry; under exactly those conditions
the lookup-failure branch, the unavailability branch and the help shortcut
of `load_module` are unreachable — the call reduces to the module's execute
result, an empty argument list never carries the help flag, and in the
executor step the module is executed with empty args while help is never
rendered. -/
theorem executor_load_module_reduces (mm : ModuleManager) (config : Config)
    (oracle : Oracle) (name : String) (m : Module)
    (hok : mm.get_module name = .ok m) (havail : m.is_available = true) :
    mm.load_module name [] config =
      (m.execute [] config, [.availChecked name, .executed name []]) ∧
    ([] : List String).any helpFlag = false ∧
    (∀ k c f s, oracle k = .ok true →
      Event.helpShown name ∉ (execStep mm config oracle name k c f s).trace ∧
      Event.executed name [] ∈ (execStep mm config oracle name k c f s).trace) := by
  have hred : mm.load_module name [] config =
      (m.execute [] config, [.availChecked name, .executed name []]) := by
    simp [ModuleManager.load_module, hok, havail, helpFlag]
  refine ⟨hred, rfl, ?_⟩
  intro k c f s hyes
  rcases hex : m.execute [] config with e | u
  · have hl : mm.load_module name [] config =
        (.error e, [.availChecked name, .executed name []]) := by
      rw [hred, hex]
    rcases ho2 : oracle (k + 1) with e2 | b
    · have hstep : execStep mm config oracle name k c f s =
          .halt e2 (.confirmAsked (executePrompt name) ::
            [Event.availChecked name, Event.executed name []] ++
            [.confirmAsked continuePrompt]) := by
        simp [execStep, hok, havail, hyes, hl, ho2]
      rw [hstep]
      constructor
      · simp [StepResult.trace]
      · simp [StepResult.trace]
    · rcases b with _ | _
      · have hstep : execStep mm config oracle name k c f s =
            .brk c (f + 1) s (.confirmAsked (executePrompt name) ::
              [Event.availChecked name, Event.executed name []] ++
              [.confirmAsked continuePrompt]) := by
          simp [execStep, hok, havail, hyes, hl, ho2]
        rw [hstep]
        constructor
        · simp [StepResult.trace]
        · simp [StepResult.trace]
      · have hstep : execStep mm config oracle name k c f s =
            .cont (k + 2) c (f + 1) s (.confirmAsked (executePrompt name) ::
              [Event.availChecked name, Event.executed name []] ++
              [.confirmAsked continuePrompt]) := by
          simp [execStep, hok, havail, hyes, hl, ho2]
        rw [hstep]
        constructor
        · simp [StepResult.trace]
        · simp [StepResult.trace]
  · have hl : mm.load_module name [] config =
        (.ok (), [.availChecked name, .executed name []]) := by
      rw [hred, hex]
    have hstep : execStep mm config oracle name k c f s =
        .cont (k + 1) (c + 1) f s
          (.confirmAsked (executePrompt name) ::
            [Event.availChecked name, Event.executed name []]) := by
      simp [execStep, hok, havail, hyes, hl]
    rw [hstep]
    constructor
    · simp [StepResult.trace]
    · simp [StepResult.trace]

/-- Witness for C10: the ssh step under the executor's guards. -/
theorem executor_load_module_reduces_witness :
    (ModuleManager.new envAllOk).load_module "ssh" [] cfg =
      (.ok (), [.availChecked "ssh", .executed "ssh" []]) ∧
    Event.helpShown "ssh" ∉
      (execStep (ModuleManager.new envAllOk) cfg oracleYes "ssh" 0 0 0 0).trace ∧
    Event.executed "ssh" [] ∈
      (execStep (ModuleManager.new envAllOk) cfg oracleYes "ssh" 0 0 0 0).trace := by
  have h := executor_load_module_reduces (ModuleManager.new envAllOk) cfg oracleYes
    "ssh" (mkRegistered envAllOk "ssh" "SSH server hardening and configuration" "1.0.0")
    rfl rfl
  exact ⟨h.1.trans rfl, (h.2.2 0 0 0 0 rfl).1, (h.2.2 0 0 0 0 rfl).2⟩

/-- C9: `ModuleManager::new` registers exactly the eleven module names
update, network, hostname, user, ssh, firewall, certs, sysctl, zsh, motd
and netdata; `timezone` is not registered, yet it is the third entry of the
essential workflow's module list; hence every essential-workflow executor
run that reaches the third step (prints its step header) aborts with the
lookup error and prints no summary. -/
theorem essential_timezone_gap (env : Env) (config : Config) (oracle : Oracle)
    (k : Nat) :
    (ModuleManager.new env).registeredNames =
      ["update", "network", "hostname", "user", "ssh", "firewall", "certs",
        "sysctl", "zsh", "motd", "netdata"] ∧
    "timezone" ∉ (ModuleManager.new env).registeredNames ∧
    EssentialWorkflow.modules.get? 2 = some "timezone" ∧
    (Event.step "timezone" ∈ (EssentialWorkflow.execute env config oracle k).2 →
      (EssentialWorkflow.execute env config oracle k).1 =
        .error (.Module "Module 'timezone' not found") ∧
      ∀ c f s, Event.summary c f s ∉ (EssentialWorkflow.execute env config oracle k).2) := by
  have hnames : (ModuleManager.new env).registeredNames =
      ["update", "network", "hostname", "user", "ssh", "firewall", "certs",
        "sysctl", "zsh", "motd", "netdata"] := rfl
  refine ⟨hnames, by rw [hnames]; decide, rfl, ?_⟩
  intro hmem
  have habs : (ModuleManager.new env).get_module "timezone" =
      .error (.Module "Module 'timezone' not found") := rfl
  have hside : ∀ m ∈ EssentialWorkflow.modules, m = "timezone" ∨
      ∃ md, (ModuleManager.new env).get_module m = .ok md := by
    intro m hm
    simp only [EssentialWorkflow, List.mem_cons, List.not_mem_nil, or_false] at hm
    rcases hm with rfl | rfl | rfl | rfl | rfl | rfl | rfl
    · exact Or.inr ⟨_, rfl⟩
    · exact Or.inr ⟨_, rfl⟩
    · exact Or.inl rfl
    · exact Or.inr ⟨_, rfl⟩
    · exact Or.inr ⟨_, rfl⟩
    · exact Or.inr ⟨_, rfl⟩
    · exact Or.inr ⟨_, rfl⟩
  have herr : (execModulesAux (ModuleManager.new env) config oracle
      EssentialWorkflow.modules k 0 0 0).1 =
      .error (.Module "Module 'timezone' not found") :=
    execModulesAux_reached_absent (ModuleManager.new env) config oracle
      "timezone" _ habs EssentialWorkflow.modules k 0 0 0 hside hmem
  exact ⟨herr, fun c f s => execModulesAux_error_no_summary (ModuleManager.new env)
    config oracle EssentialWorkflow.modules k 0 0 0 _ herr c f s⟩

/-- Witness for C9: the all-yes all-available essential run reaches the
timezone step and aborts with the lookup error, printing no summary. -/
theorem essential_timezone_gap_witness :
    Event.step "timezone" ∈ (EssentialWorkflow.execute envAllOk cfg oracleYes 0).2 ∧
    (EssentialWorkflow.execute envAllOk cfg oracleYes 0).1 =
      .error (.Module "Module 'timezone' not found") ∧
    Event.summary 2 0 0 ∉ (EssentialWorkflow.execute envAllOk cfg oracleYes 0).2 := by
  have hmem : Event.step "timezone" ∈
      (EssentialWorkflow.execute envAllOk cfg oracleYes 0).2 := by decide
  have h := (essential_timezone_gap envAllOk cfg oracleYes 0).2.2.2 hmem
  exact ⟨hmem, h.1, h.2 2 0 0⟩

/-- C7: when the overall workflow confirmation is declined,
`execute_workflow` returns success immediately as a no-op: its whole trace
is that single prompt — no module execute, no executor loop output, no
reboot check, no summary — and the cancellation is not an error value. -/
theorem run_workflow_declined_noop (wm : WorkflowManager) (name : String)
    (w : Workflow) (env : Env) (config : Config) (oracle : Oracle)
    (hres : wm.resolve name = some w) (hno : oracle 0 = .ok false) :
    wm.execute_workflow name env config oracle =
      (.ok (), [.confirmAsked workflowPrompt]) ∧
    (∀ n args, Event.executed n args ∉ (wm.execute_workflow name env config oracle).2) ∧
    Event.rebootChecked ∉ (wm.execute_workflow name env config oracle).2 ∧
    (∀ c f s, Event.summary c f s ∉ (wm.execute_workflow name env config oracle).2) := by
  have heq : wm.execute_workflow name env config oracle =
      (.ok (), [.confirmAsked workflowPrompt]) := by
    simp [WorkflowManager.execute_workflow, hres, hno]
  refine ⟨heq, fun n args => ?_, ?_, fun c f s => ?_⟩ <;> rw [heq] <;> simp

/-- Witness for C7: declining the overall confirmation of the development
workflow. -/
theorem run_workflow_declined_noop_witness :
    wmDevelopment.execute_workflow "development" envAllOk cfg oracleNo =
      (.ok (), [.confirmAsked workflowPrompt]) ∧
    Event.executed "user" [] ∉
      (wmDevelopment.execute_workflow "development" envAllOk cfg oracleNo).2 ∧
    Event.rebootChecked ∉
      (wmDevelopment.execute_workflow "development" envAllOk cfg oracleNo).2 ∧
    Event.summary 0 0 0 ∉
      (wmDevelopment.execute_workflow "development" envAllOk cfg oracleNo).2 := by
  have h := run_workflow_declined_noop wmDevelopment "development" DevelopmentWorkflow
    envAllOk cfg oracleNo rfl rfl
  exact ⟨h.1, h.2.1 "user" [], h.2.2.1, h.2.2.2 0 0 0⟩

/-- C6 counterexample: with a failing reboot check, the workflow result IS
the reboot-check error — `execute_workflow` calls `check_reboot_needed()?`
(src/workflows/mod.rs line 86), so the error propagates, refuting "logged
but never propagated as a failure". -/
theorem reboot_error_propagates_counterexample :
    (wmDevelopment.execute_workflow "development" envRebootErr cfg oracleYes).1 =
      .error (.System "reboot check failed") := by
  rfl

/-- C6 amended: after the executor returns successfully, `execute_workflow`
invokes the reboot check exactly once and *propagates* its result — an
error from the check becomes the workflow's error result — while if the
executor itself fails, the reboot check is not invoked at all. -/
theorem run_workflow_reboot_check (wm : WorkflowManager) (name : String)
    (w : Workflow) (env : Env) (config : Config) (oracle : Oracle)
    (hres : wm.resolve name = some w) (hyes0 : oracle 0 = .ok true) :
    (∀ t, w.execute env config oracle 1 = (.ok (), t) →
      wm.execute_workflow name env config oracle =
        (env.reboot, .confirmAsked workflowPrompt :: t ++ [.rebootChecked]) ∧
      (Event.confirmAsked workflowPrompt :: t ++ [Event.rebootChecked]).count
        Event.rebootChecked = 1) ∧
    (∀ e t, w.execute env config oracle 1 = (.error e, t) →
      wm.execute_workflow name env config oracle =
        (.error e, .confirmAsked workflowPrompt :: t) ∧
      Event.rebootChecked ∉ (Event.confirmAsked workflowPrompt :: t : List Event)) := by
  constructor
  · intro t ht
    have h2 : (execModulesAux (ModuleManager.new env) config oracle w.modules 1 0 0 0).2 = t :=
      congrArg Prod.snd ht
    have hnot : Event.rebootChecked ∉ t := by
      intro hmem
      rw [← h2] at hmem
      have := execModulesAux_events (ModuleManager.new env) config oracle
        w.modules 1 0 0 0 Event.rebootChecked hmem
      simp [loopEvent] at this
    constructor
    · rcases hr : env.reboot with e | u
      · simp [WorkflowManager.execute_workflow, hres, hyes0, ht, hr]
      · simp [WorkflowManager.execute_workflow, hres, hyes0, ht, hr]
    · have h0 : t.count Event.rebootChecked = 0 := List.count_eq_zero.mpr hnot
      simp [List.count_cons, List.count_append, h0]
  · intro e t ht
    have h2 : (execModulesAux (ModuleManager.new env) config oracle w.modules 1 0 0 0).2 = t :=
      congrArg Prod.snd ht
    have hnot : Event.rebootChecked ∉ t := by
      intro hmem
      rw [← h2] at hmem
      have := execModulesAux_events (ModuleManager.new env) config oracle
        w.modules 1 0 0 0 Event.rebootChecked hmem
      simp [loopEvent] at this
    constructor
    · simp [WorkflowManager.execute_workflow, hres, hyes0, ht]
    · simp [hnot]

/-- Witness for C6: the development run whose reboot check fails propagates
that error after exactly one reboot check; the essential run, whose
executor aborts at timezone, never reaches the reboot check. -/
theorem run_workflow_reboot_check_witness :
    wmDevelopment.execute_workflow "development" envRebootErr cfg oracleYes =
      (.error (.System "reboot check failed"),
        .confirmAsked workflowPrompt ::
          (DevelopmentWorkflow.execute envRebootErr cfg oracleYes 1).2 ++
          [.rebootChecked]) ∧
    Event.rebootChecked ∉
      (wmEssential.execute_workflow "essential" envAllOk cfg oracleYes).2 := by
  constructor
  · exact ((run_workflow_reboot_check wmDevelopment "development" DevelopmentWorkflow
      envRebootErr cfg oracleYes rfl rfl).1 _ rfl).1
  · have h := (run_workflow_reboot_check wmEssential "essential" EssentialWorkflow
      envAllOk cfg oracleYes rfl rfl).2 _ _ rfl
    rw [h.1]
    exact h.2

/-- C2 counterexample: a workflow whose list contains the absent name
`timezone`, run with every prompt confirmed, makes `execute_workflow`
return the `Module`-variant lookup error — not a `NotFound` error as the
claim states. -/
theorem absent_module_error_variant_counterexample :
    (wmEssential.execute_workflow "essential" envAllOk cfg oracleYes).1 =
      .error (.Module "Module 'timezone' not found") ∧
    FluxError.isNotFound (.Module "Module 'timezone' not found") = false := by
  exact ⟨rfl, rfl⟩

/-- C2 amended: for every workflow whose ordered module list contains a
name absent from the module registry, once execution reaches the absent
entry (here: the overall and per-module confirmations are answered yes and
the earlier entries resolve), `execute_workflow` aborts with the
`Module`-variant lookup error — the same error `get_module` produced, which
is never the `NotFound` variant — and no summary counters are ever
produced. -/
theorem run_workflow_absent_module_aborts (wm : WorkflowManager) (name : String)
    (w : Workflow) (env : Env) (config : Config) (oracle : Oracle)
    (l₁ l₂ : List String) (n : String) (e : FluxError)
    (hres : wm.resolve name = some w) (hyes : ∀ j, oracle j = .ok true)
    (hsplit : w.modules = l₁ ++ n :: l₂)
    (hpre : ∀ m ∈ l₁, ∃ md, (ModuleManager.new env).get_module m = .ok md)
    (habs : (ModuleManager.new env).get_module n = .error e) :
    (wm.execute_workflow name env config oracle).1 = .error e ∧
    e.isModuleErr = true ∧
    ∀ c f s, Event.summary c f s ∉ (wm.execute_workflow name env config oracle).2 := by
  have herr : (execModulesAux (ModuleManager.new env) config oracle
      w.modules 1 0 0 0).1 = .error e := by
    rw [hsplit]
    exact execModulesAux_first_absent (ModuleManager.new env) config oracle hyes
      n e habs l₁ l₂ 1 0 0 0 hpre
  have hns := execModulesAux_error_no_summary (ModuleManager.new env) config oracle
    w.modules 1 0 0 0 e herr
  have hwe : w.execute env config oracle 1 =
      (Except.error e,
        (execModulesAux (ModuleManager.new env) config oracle w.modules 1 0 0 0).2) := by
    have hself : w.execute env config oracle 1 =
        ((execModulesAux (ModuleManager.new env) config oracle w.modules 1 0 0 0).1,
          (execModulesAux (ModuleManager.new env) config oracle w.modules 1 0 0 0).2) := rfl
    rw [hself, herr]
  have heq : wm.execute_workflow name env config oracle =
      (.error e, .confirmAsked workflowPrompt ::
        (execModulesAux (ModuleManager.new env) config oracle w.modules 1 0 0 0).2) := by
    simp [WorkflowManager.execute_workflow, hres, hyes 0, hwe]
  refine ⟨by rw [heq], get_module_error_isModuleErr _ _ _ habs, ?_⟩
  intro c f s hmem
  rw [heq] at hmem
  rcases List.mem_cons.mp hmem with h | h
  · cases h
  · exact hns c f s h

/-- Witness for C2: the essential workflow, run through the registry with
every prompt confirmed, aborts at its absent third entry with the
`Module`-variant error and produces no summary. -/
theorem run_workflow_absent_module_aborts_witness :
    (wmEssential.execute_workflow "essential" envAllOk cfg oracleYes).1 =
      .error (.Module "Module 'timezone' not found") ∧
    FluxError.isModuleErr (.Module "Module 'timezone' not found") = true ∧
    Event.summary 0 0 0 ∉
      (wmEssential.execute_workflow "essential" envAllOk cfg oracleYes).2 := by
  have h := run_workflow_absent_module_aborts wmEssential "essential" EssentialWorkflow
    envAllOk cfg oracleYes ["hostname", "network"] ["update", "certs", "sysctl", "ssh"]
    "timezone" (.Module "Module 'timezone' not found") rfl (fun _ => rfl) rfl ?hpre rfl
  · exact ⟨h.1, h.2.1, h.2.2 0 0 0⟩
  case hpre =>
    intro m hm
    simp only [List.mem_cons, List.not_mem_nil, or_false] at hm
    rcases hm with rfl | rfl
    · exact ⟨_, rfl⟩
    · exact ⟨_, rfl⟩

end Flux
